import Mathlib

deriving instance DecidableEq for Except

/-!
Verification development for the papyrus repository (shallow embedding).

Embedded source files:
  * `papyrus/geo_interface.py` — the `GeoInterface` mixin mapping
    SQLAlchemy/GeoAlchemy entities to and from GeoJSON features
    (`__init__`, `__update__`, `__read__`, `__geo_interface__`).
  * `papyrus/renderers.py` — the `GeoJSON` and `XSD` renderer factories.

Python dictionaries are modelled as association lists with in-place
overwrite on assignment; Python `None` is the value `Value.vnone`;
attribute access on an entity defaults to `Value.vnone` (SQLAlchemy's
instrumented column attributes yield `None` when unset).  Exceptions are
modelled with `Except String`.  External library functions
(`shapely.geometry.asShape`, `geoalchemy2.shape.from_shape` /
`to_shape`, `geojson.dumps`, and `papyrus.xsd.get_class_xsd`) are
modelled by constructors/parameters; the repository's own control flow
is translated line by line.
-/

namespace Papyrus

/-! ### Python dictionaries as association lists -/

/-- Lookup in a Python dict (first binding for the key). -/
def dlookup {α : Type} : List (String × α) → String → Option α
  | [], _ => none
  | (k, v) :: rest, key => if k = key then some v else dlookup rest key

/-- Python dict assignment `d[key] = v`: overwrite in place or append. -/
def dinsert {α : Type} : List (String × α) → String → α → List (String × α)
  | [], key, v => [(key, v)]
  | (k, w) :: rest, key, v =>
      if k = key then (k, v) :: rest else (k, w) :: dinsert rest key v

/-- Python `key in d`. -/
def dcontains {α : Type} (d : List (String × α)) (key : String) : Bool :=
  (dlookup d key).isSome

/-! ### Geometries and spatial values

`Geom` models a (well-formed) GeoJSON geometry object, `Shape` a shapely
shape, and `WKBElement` a GeoAlchemy spatial database value carrying an
SRID.  `asShape`, `from_shape` and `to_shape` model the corresponding
library conversions, which are mutually inverse on well-formed data. -/

structure Geom where
  coords : List (Int × Int)
deriving DecidableEq, Repr

/-- Shapely shape produced from a GeoJSON geometry. -/
structure Shape where
  geom : Geom
deriving DecidableEq, Repr

/-- `shapely.geometry.asShape`. -/
def asShape (g : Geom) : Shape := ⟨g⟩

/-- GeoAlchemy spatial database value (`WKBElement`). -/
structure WKBElement where
  shape : Shape
  srid : Int
deriving DecidableEq, Repr

/-- `geoalchemy2.shape.from_shape`. -/
def from_shape (s : Shape) (srid : Int) : WKBElement := ⟨s, srid⟩

/-- `geoalchemy2.shape.to_shape`. -/
def to_shape (w : WKBElement) : Shape := w.shape

/-- A Python value stored in an entity attribute or a feature property.
`vnone` is Python `None`. -/
inductive Value where
  | vnone
  | vint (n : Int)
  | vstr (s : String)
  | vgeom (w : WKBElement)
deriving DecidableEq, Repr

/-- The geometry slot of a GeoJSON feature received from a client:
absent (`None`), the `geojson.geometry.Default` placeholder, or an
actual geometry. -/
inductive FGeom where
  | fnone
  | fdefault
  | fgeom (g : Geom)
deriving DecidableEq, Repr

/-- A GeoJSON feature as received from the client.  `id = none` models a
feature without an `id` attribute; `id = some .vnone` models an `id`
attribute equal to `None`. -/
structure Feature where
  id : Option Value
  geometry : FGeom
  properties : List (String × Value)
deriving DecidableEq, Repr

/-- `hasattr(feature, 'id') and feature.id is not None`. -/
def Feature.hasValidId (f : Feature) : Bool :=
  match f.id with
  | some v => v ≠ Value.vnone
  | none => false

/-! ### Entities (mapped objects) -/

/-- State of a mapped object: its attribute dictionary and the `_shape`
attribute set by `__update__` (`none` models `hasattr(self, '_shape')`
being false). -/
structure Entity where
  attrs : List (String × Value)
  shapeAttr : Option Shape
deriving DecidableEq, Repr

/-- A freshly constructed object with no attribute set. -/
def Entity.fresh : Entity := ⟨[], none⟩

/-- `getattr(self, k)` (unset instrumented column attributes read as
`None`). -/
def Entity.getattr (e : Entity) (k : String) : Value :=
  (dlookup e.attrs k).getD Value.vnone

/-- `setattr(self, k, v)`. -/
def Entity.setattr (e : Entity) (k : String) (v : Value) : Entity :=
  { e with attrs := dinsert e.attrs k v }

/-! ### Mapper metadata -/

/-- The facts about a SQLAlchemy `Column` that `geo_interface.py`
inspects: `primary_key`, whether `isinstance(col.type, Geometry)`, the
type's SRID, and whether `col.foreign_keys` is nonempty. -/
structure Column where
  primary_key : Bool
  isGeometry : Bool
  srid : Int
  foreign_keys : Bool
deriving DecidableEq, Repr

/-- A SQLAlchemy `ColumnProperty`.  A column property always has at
least one column (`col0` is `p.columns[0]`); `moreCols` holds the
remaining columns, so `len(p.columns) = 1` iff `moreCols = []`. -/
structure ColumnProperty where
  key : String
  col0 : Column
  moreCols : List Column
deriving DecidableEq, Repr

/-- A property returned by `class_mapper(...).iterate_properties`:
either a `ColumnProperty` or some other property kind (relationship,
…), which every loop of `geo_interface.py` skips. -/
inductive MappedProperty where
  | column (p : ColumnProperty)
  | relationship (key : String)
deriving DecidableEq, Repr

/-- The mapper of the entity's class (`class_mapper(self.__class__)`),
exposing its properties in iteration order. -/
structure Mapper where
  props : List MappedProperty
deriving DecidableEq, Repr

/-! ### `GeoInterface.__update__` -/

/-- One iteration of the `__update__` loop body for one mapped
property (`geo_interface.py`, lines 90–103). -/
def updateStep (f : Feature) (e : Entity) (mp : MappedProperty) : Entity :=
  match mp with
  | .relationship _ => e
  | .column p =>
    let col := p.col0
    if col.isGeometry then
      match f.geometry with
      | .fgeom g =>
          let srid := col.srid
          let shape := asShape g
          let e' := e.setattr p.key (Value.vgeom (from_shape shape srid))
          { e' with shapeAttr := some shape }
      | _ => e
    else if col.primary_key then e
    else if dcontains f.properties p.key then
      e.setattr p.key ((dlookup f.properties p.key).getD Value.vnone)
    else e

/-- The `for p in class_mapper(...).iterate_properties` loop of
`__update__`. -/
def updateProps (f : Feature) : List MappedProperty → Entity → Entity
  | [], e => e
  | mp :: rest, e => updateProps f rest (updateStep f e mp)

/-- The trailing `__add_properties__` loop of `__update__`
(`setattr(self, k, feature.properties.get(k))`). -/
def setAddProps (f : Feature) : List String → Entity → Entity
  | [], e => e
  | k :: rest, e =>
      setAddProps f rest (e.setattr k ((dlookup f.properties k).getD Value.vnone))

/-- `GeoInterface.__update__` (`geo_interface.py`, lines 82–107).
`addProps` is the class's `__add_properties__` (the empty list models
both `None` and an empty tuple, which the `if` treats alike). -/
def GeoInterface.update (m : Mapper) (addProps : List String)
    (f : Feature) (e : Entity) : Entity :=
  setAddProps f addProps (updateProps f m.props e)

/-! ### `GeoInterface.__init__` -/

/-- The primary-key-finding loop of `__init__` (lines 73–77): the local
variable `primary_key` after the loop, i.e. the key of the last column
property whose first column is a primary key (`none` = never
assigned). -/
def primaryKeyLoop : List MappedProperty → Option String → Option String
  | [], acc => acc
  | .column p :: rest, acc =>
      primaryKeyLoop rest (if p.col0.primary_key then some p.key else acc)
  | .relationship _ :: rest, acc => primaryKeyLoop rest acc

def primaryKeyName (m : Mapper) : Option String :=
  primaryKeyLoop m.props none

/-- `GeoInterface.__init__` (lines 64–80).  `feature = none` models a
`None` (falsy) argument.  The result is `none` exactly when the Python
code raises: a `NameError` reading the unassigned local `primary_key`
when the feature carries an id but no column property is a primary
key. -/
def GeoInterface.init (m : Mapper) (addProps : List String)
    (feature : Option Feature) (e : Entity) : Option Entity :=
  match feature with
  | none => some e
  | some f =>
    if f.hasValidId then
      match primaryKeyName m with
      | some pk =>
          some (GeoInterface.update m addProps f
            (e.setattr pk (f.id.getD Value.vnone)))
      | none => none
    else
      some (GeoInterface.update m addProps f e)

/-! ### `GeoInterface.__read__` -/

/-- The feature built by `__read__`
(`geojson.Feature(id=id, geometry=geom, properties=properties)`). -/
structure ReadFeature where
  id : Value
  geometry : Option Shape
  properties : List (String × Value)
deriving DecidableEq, Repr

/-- `to_shape` applied to a stored attribute value: succeeds only on a
spatial database value, raising (like the library) otherwise. -/
def pyToShape : Value → Except String Shape
  | .vgeom w => .ok (to_shape w)
  | _ => .error "to_shape failed"

/-- The `for p in class_mapper(...).iterate_properties` loop of
`__read__` (lines 117–131), threading the `id`, `geom` and `properties`
local variables.  `toShape` is the library conversion applied to a
non-`None` stored geometry value; errors (`NotImplementedError` for a
column property spanning several columns, or a conversion error)
abort the loop. -/
def readLoop (toShape : Value → Except String Shape) (e : Entity) :
    List MappedProperty → Value → Option Shape → List (String × Value) →
    Except String (Value × Option Shape × List (String × Value))
  | [], i, g, d => .ok (i, g, d)
  | .relationship _ :: rest, i, g, d => readLoop toShape e rest i g d
  | .column p :: rest, i, g, d =>
    match p.moreCols with
    | _ :: _ => .error "NotImplementedError"
    | [] =>
      let col := p.col0
      let val := e.getattr p.key
      if col.primary_key then readLoop toShape e rest val g d
      else if col.isGeometry then
        match e.shapeAttr with
        | some s => readLoop toShape e rest i (some s) d
        | none =>
          if val = Value.vnone then readLoop toShape e rest i g d
          else
            match toShape val with
            | .ok s => readLoop toShape e rest i (some s) d
            | .error msg => .error msg
      else if col.foreign_keys then readLoop toShape e rest i g d
      else readLoop toShape e rest i g (dinsert d p.key val)

/-- The trailing `__add_properties__` loop of `__read__`
(`properties[k] = getattr(self, k)`). -/
def insertAddProps (e : Entity) : List String → List (String × Value) →
    List (String × Value)
  | [], d => d
  | k :: rest, d => insertAddProps e rest (dinsert d k (e.getattr k))

/-- `GeoInterface.__read__` (lines 109–137), generic in the `to_shape`
conversion so that propagation of library errors can be stated. -/
def GeoInterface.readE (toShape : Value → Except String Shape)
    (m : Mapper) (addProps : List String) (e : Entity) :
    Except String ReadFeature :=
  match readLoop toShape e m.props Value.vnone none [] with
  | .error msg => .error msg
  | .ok (i, g, d) => .ok ⟨i, g, insertAddProps e addProps d⟩

/-- `GeoInterface.__read__` with the real `to_shape` conversion. -/
def GeoInterface.read (m : Mapper) (addProps : List String) (e : Entity) :
    Except String ReadFeature :=
  GeoInterface.readE pyToShape m addProps e

/-- The `__geo_interface__` property (lines 139–145): it just calls
`__read__`. -/
def GeoInterface.geo_interface (m : Mapper) (addProps : List String)
    (e : Entity) : Except String ReadFeature :=
  GeoInterface.read m addProps e

/-! ### `renderers.py` — the GeoJSON renderer -/

/-- A Python value handed to a renderer: a list/tuple, a value produced
by a `geojson.factory` collection constructor, a feature, or anything
else (opaque). -/
inductive PyValue where
  | list (xs : List PyValue)
  | featureCollection (xs : List PyValue)
  | geometryCollection (xs : List PyValue)
  | feature (f : ReadFeature)
  | raw (s : String)

/-- A Pyramid response: only the fields `renderers.py` touches. -/
structure Response where
  content_type : String
  default_content_type : String
deriving DecidableEq, Repr

/-- A Pyramid request: its query parameters (`request.params`) and its
response object. -/
structure Request where
  params : List (String × String)
  response : Response
deriving DecidableEq, Repr

/-- The `isinstance(value, (list, tuple))` wrapping step of
`GeoJSON.__call__` (line 78–79): lists and tuples are passed to the
configured collection factory. -/
def wrapCollection (collection : List PyValue → PyValue) (value : PyValue) :
    PyValue :=
  match value with
  | .list xs => collection xs
  | v => v

/-- `getattr(geojson.factory, collection_type)` for a string
`collection_type` constructor argument. -/
def geojsonFactoryType (name : String) : Option (List PyValue → PyValue) :=
  if name = "FeatureCollection" then some PyValue.featureCollection
  else if name = "GeometryCollection" then some PyValue.geometryCollection
  else none

/-- The part of `GeoJSON.__call__`'s `_render` after `geojson.dumps`
(lines 81–93): JSONP wrapping and content-type negotiation.  Returns
the body and the (possibly mutated) request. -/
def geojsonFinish (jsonpParamName : String) (ret : String)
    (request : Option Request) : String × Option Request :=
  match request with
  | none => (ret, none)
  | some req =>
    let response := req.response
    if response.content_type = response.default_content_type then
      match dlookup req.params jsonpParamName with
      | none =>
          (ret, some { req with
            response := { response with content_type := "application/json" } })
      | some callback =>
          (callback ++ "(" ++ ret ++ ");",
           some { req with
            response := { response with content_type := "text/javascript" } })
    else (ret, some req)

/-- The `_render` closure returned by `GeoJSON.__call__` (lines 76–94).
`dumps` models `geojson.dumps(value, cls=Encoder, use_decimal=True)`;
`collection` is the configured `collection_type`; the request is
`system.get('request')`. -/
def GeoJSON.render (dumps : PyValue → String)
    (collection : List PyValue → PyValue) (jsonpParamName : String)
    (value : PyValue) (request : Option Request) : String × Option Request :=
  geojsonFinish jsonpParamName (dumps (wrapCollection collection value)) request

/-! ### `renderers.py` — the XSD renderer -/

/-- The `_render` closure returned by `XSD.__call__` (lines 194–208).
`gen` models `get_class_xsd(StringIO(), cls, ...).getvalue()` from
`papyrus/xsd.py` (not under the embedded sources), abstractly as a
function of the rendered class/table and the four configured options;
`cls` is the view's return value.  When no request is present the
Python function falls through and returns `None` without touching any
response, hence the `Option String` body. -/
def XSD.render (gen : String → Bool → Bool → Option String → Option String → String)
    (include_primary_keys include_foreign_keys : Bool)
    (relationship_property_callback association_proxy_callback : Option String)
    (cls : String) (request : Option Request) :
    Option String × Option Request :=
  match request with
  | none => (none, none)
  | some req =>
      (some (gen cls include_primary_keys include_foreign_keys
          relationship_property_callback association_proxy_callback),
       some { req with
         response := { req.response with content_type := "application/xml" } })

/-! ### Derived notions used by the theorems -/

/-- The attribute key a mapped property writes/reads (`none` for
non-column properties, which every loop skips). -/
def MappedProperty.keyOf : MappedProperty → Option String
  | .column p => some p.key
  | .relationship _ => none

/-- The attribute keys of the column properties, in iteration order. -/
def colKeys (props : List MappedProperty) : List String :=
  props.filterMap MappedProperty.keyOf

/-- The value `__update__` leaves in the attribute of column property
`p` whose previous value was `old` (read off the branches of the loop
body). -/
def updateVal (f : Feature) (p : ColumnProperty) (old : Value) : Value :=
  if p.col0.isGeometry then
    match f.geometry with
    | .fgeom g => Value.vgeom (from_shape (asShape g) p.col0.srid)
    | _ => old
  else if p.col0.primary_key then old
  else if dcontains f.properties p.key then
    (dlookup f.properties p.key).getD Value.vnone
  else old

/-- The `id` local of `__read__` after the property loop. -/
def readIdRef (e : Entity) : List MappedProperty → Value → Value
  | [], i => i
  | .relationship _ :: rest, i => readIdRef e rest i
  | .column p :: rest, i =>
      if p.col0.primary_key then readIdRef e rest (e.getattr p.key)
      else readIdRef e rest i

/-- The `geom` local of `__read__` after the property loop (total
version; agrees with the loop on safe entities). -/
def readGeomRef (e : Entity) : List MappedProperty → Option Shape → Option Shape
  | [], g => g
  | .relationship _ :: rest, g => readGeomRef e rest g
  | .column p :: rest, g =>
      if p.col0.primary_key then readGeomRef e rest g
      else if p.col0.isGeometry then
        match e.shapeAttr with
        | some s => readGeomRef e rest (some s)
        | none =>
          match e.getattr p.key with
          | .vgeom w => readGeomRef e rest (some (to_shape w))
          | _ => readGeomRef e rest g
      else readGeomRef e rest g

/-- The `properties` local of `__read__` after the property loop. -/
def readPropsRef (e : Entity) : List MappedProperty → List (String × Value) →
    List (String × Value)
  | [], d => d
  | .relationship _ :: rest, d => readPropsRef e rest d
  | .column p :: rest, d =>
      if p.col0.primary_key then readPropsRef e rest d
      else if p.col0.isGeometry then readPropsRef e rest d
      else if p.col0.foreign_keys then readPropsRef e rest d
      else readPropsRef e rest (dinsert d p.key (e.getattr p.key))

/-- `None` or a spatial database value: exactly the stored values on
which the `to_shape` branch of `__read__` cannot raise. -/
def Value.isGeomOrNone : Value → Bool
  | .vnone => true
  | .vgeom _ => true
  | _ => false

/-- No branch of the `__read__` loop raises on this property for this
entity state. -/
def readSafeProp (e : Entity) : MappedProperty → Bool
  | .column p =>
      p.moreCols.isEmpty &&
      (p.col0.primary_key || !p.col0.isGeometry || e.shapeAttr.isSome ||
        (e.getattr p.key).isGeomOrNone)
  | .relationship _ => true

def readSafe (e : Entity) (props : List MappedProperty) : Bool :=
  props.all (readSafeProp e)

/-- Well-formedness of one mapped property, as guaranteed for the
classes the mixin is written for: every column property spans exactly
one column, and primary-key columns are not geometry-typed. -/
def wfProp : MappedProperty → Bool
  | .column p => p.moreCols.isEmpty && (!p.col0.primary_key || !p.col0.isGeometry)
  | .relationship _ => true

/-- Well-formedness of a mapper: well-formed properties with pairwise
distinct attribute keys (SQLAlchemy guarantees distinct keys). -/
def Mapper.wf (m : Mapper) : Prop :=
  m.props.all wfProp = true ∧ (colKeys m.props).Nodup

def hasGeomColProp : MappedProperty → Bool
  | .column p => p.col0.isGeometry
  | .relationship _ => false

/-- Some column property is geometry-typed. -/
def hasGeomCol (props : List MappedProperty) : Bool :=
  props.any hasGeomColProp

def isNonPkGeomColProp : MappedProperty → Bool
  | .column p => !p.col0.primary_key && p.col0.isGeometry
  | .relationship _ => false

/-- Some non-primary-key column property is geometry-typed. -/
def hasNonPkGeomCol (props : List MappedProperty) : Bool :=
  props.any isNonPkGeomColProp

/-- The property is a column property with key `k` that `__read__`
copies into `properties` (neither primary key, nor geometry, nor
foreign key). -/
def isPlainColPropFor (k : String) : MappedProperty → Bool
  | .column p =>
      p.key = k && !p.col0.primary_key && !p.col0.isGeometry &&
        !p.col0.foreign_keys
  | .relationship _ => false

def plainKeyIn (props : List MappedProperty) (k : String) : Bool :=
  props.any (isPlainColPropFor k)

/-- Reference definition taken from the words of the specification's
no-cache reading: the geometry a cache-free read would return, derived
from the currently stored geometry column value — converted to a
shape, or `none` when the stored value is `None`. -/
def cacheFreeGeom (e : Entity) (geomKey : String) : Option Shape :=
  match e.getattr geomKey with
  | .vgeom w => some (to_shape w)
  | _ => none

/-! ### Concrete fixtures (a `Spot`-like mapped class) -/

def pkColumn : Column := ⟨true, false, 0, false⟩

def geomColumn : Column := ⟨false, true, 4326, false⟩

def plainColumn : Column := ⟨false, false, 0, false⟩

def fkColumn : Column := ⟨false, false, 0, true⟩

def idProp : ColumnProperty := ⟨"id", pkColumn, []⟩

def geomProp : ColumnProperty := ⟨"geom", geomColumn, []⟩

def nameProp : ColumnProperty := ⟨"name", plainColumn, []⟩

def typeIdProp : ColumnProperty := ⟨"type_id", fkColumn, []⟩

/-- A `Spot`-like mapped class: integer primary key `id`, geometry
column `geom`, plain column `name`, foreign-key column `type_id`. -/
def spotMapper : Mapper :=
  ⟨[.column idProp, .column geomProp, .column nameProp, .column typeIdProp]⟩

/-- A client feature with an id, a geometry, and properties covering
the non-primary-key column properties `name` and `type_id`. -/
def spotFeature : Feature :=
  ⟨some (.vint 7), .fgeom ⟨[(1, 2)]⟩,
   [("name", .vstr "spot"), ("type_id", .vint 5)]⟩

/-- An entity whose cached `_shape` disagrees with the stored geometry
column value (as after the ORM refreshed the column behind the
cache). -/
def staleEntity : Entity :=
  ⟨[("id", .vint 1), ("geom", .vgeom ⟨⟨⟨[(9, 9)]⟩⟩, 4326⟩)],
   some ⟨⟨[(0, 0)]⟩⟩⟩

/-- An entity whose geometry column holds a non-`None`, non-spatial
value and which has no cached shape. -/
def badGeomEntity : Entity :=
  ⟨[("id", .vint 1), ("geom", .vstr "oops")], none⟩

/-- A mapper with a column property spanning two columns. -/
def twoColMapper : Mapper :=
  ⟨[.column ⟨"a", plainColumn, [plainColumn]⟩]⟩

/-- A `to_shape` model that never raises. -/
def totalToShape : Value → Except String Shape :=
  fun _ => .ok ⟨⟨[]⟩⟩

/-- A client feature with no id, no geometry and no properties. -/
def noIdFeature : Feature := ⟨none, .fnone, []⟩

/-- An entity with a stored spatial value and no cached shape. -/
def storedOnlyEntity : Entity :=
  ⟨[("id", .vint 3), ("geom", .vgeom ⟨⟨⟨[(4, 4)]⟩⟩, 4326⟩)], none⟩

/-- A request whose response content type was already set to something
other than the default. -/
def styledRequest : Request :=
  ⟨[], ⟨"text/plain", "text/html"⟩⟩

/-- A request carrying a `callback` query parameter, response content
type still the default. -/
def callbackRequest : Request :=
  ⟨[("callback", "cb")], ⟨"text/html", "text/html"⟩⟩

/-- A request with no query parameters, response content type still the
default. -/
def plainRequest : Request :=
  ⟨[], ⟨"text/html", "text/html"⟩⟩

/-! ### Dictionary lemmas -/

theorem dlookup_dinsert_self {α : Type} (d : List (String × α)) (k : String)
    (v : α) : dlookup (dinsert d k v) k = some v := by
  induction d with
  | nil => simp [dinsert, dlookup]
  | cons kv rest ih =>
    obtain ⟨k', w⟩ := kv
    by_cases h : k' = k <;> simp [dinsert, dlookup, h, ih]

theorem dlookup_dinsert_ne {α : Type} (d : List (String × α)) (k k' : String)
    (v : α) (h : k' ≠ k) : dlookup (dinsert d k v) k' = dlookup d k' := by
  have hne : k ≠ k' := fun hh => h hh.symm
  induction d with
  | nil => simp [dinsert, dlookup, hne]
  | cons kv rest ih =>
    obtain ⟨k₀, w⟩ := kv
    by_cases h₀ : k₀ = k
    · subst h₀
      simp [dinsert, dlookup, hne]
    · simp [dinsert, dlookup, h₀, ih]

/-! ### Entity attribute lemmas -/

theorem getattr_setattr_self (e : Entity) (k : String) (v : Value) :
    (e.setattr k v).getattr k = v := by
  simp [Entity.getattr, Entity.setattr, dlookup_dinsert_self]

theorem getattr_setattr_ne (e : Entity) (k k' : String) (v : Value)
    (h : k' ≠ k) : (e.setattr k v).getattr k' = e.getattr k' := by
  simp [Entity.getattr, Entity.setattr, dlookup_dinsert_ne _ _ _ _ h]

theorem shapeAttr_setattr (e : Entity) (k : String) (v : Value) :
    (e.setattr k v).shapeAttr = e.shapeAttr := rfl

/-! ### `__update__` lemmas -/

theorem updateStep_getattr_ne (f : Feature) (e : Entity)
    (mp : MappedProperty) (k : String) (h : mp.keyOf ≠ some k) :
    (updateStep f e mp).getattr k = e.getattr k := by
  match mp with
  | .relationship r => rfl
  | .column p =>
    have hk : k ≠ p.key := by
      intro hkk
      exact h (by simp [MappedProperty.keyOf, hkk])
    simp only [updateStep]
    split
    · split
      · simp [Entity.getattr, Entity.setattr,
          dlookup_dinsert_ne _ _ _ _ hk]
      · rfl
    · split
      · rfl
      · split
        · exact getattr_setattr_ne _ _ _ _ hk
        · rfl

theorem updateProps_getattr_not_mem (f : Feature)
    (props : List MappedProperty) (e : Entity) (k : String)
    (h : k ∉ colKeys props) :
    (updateProps f props e).getattr k = e.getattr k := by
  induction props generalizing e with
  | nil => rfl
  | cons mp rest ih =>
    have hrest : k ∉ colKeys rest := by
      intro hk
      exact h (by simp [colKeys, List.filterMap_cons] at hk ⊢; cases hmp : mp.keyOf <;> simp [hmp, colKeys] at hk ⊢ <;> simp [hk])
    have hmp : mp.keyOf ≠ some k := by
      intro hk
      apply h
      simp [colKeys, List.filterMap_cons, hk]
    simp only [updateProps]
    rw [ih (updateStep f e mp) hrest, updateStep_getattr_ne f e mp k hmp]

theorem colKeys_cons_column (q : ColumnProperty) (rest : List MappedProperty) :
    colKeys (MappedProperty.column q :: rest) = q.key :: colKeys rest := rfl

theorem colKeys_cons_rel (r : String) (rest : List MappedProperty) :
    colKeys (MappedProperty.relationship r :: rest) = colKeys rest := rfl

theorem colKeys_of_mem {props : List MappedProperty} {p : ColumnProperty}
    (h : MappedProperty.column p ∈ props) : p.key ∈ colKeys props := by
  simp only [colKeys, List.mem_filterMap]
  exact ⟨.column p, h, rfl⟩

theorem updateProps_getattr_mem (f : Feature) (props : List MappedProperty)
    (p : ColumnProperty) :
    ∀ e : Entity, (colKeys props).Nodup → MappedProperty.column p ∈ props →
      (updateProps f props e).getattr p.key = updateVal f p (e.getattr p.key) := by
  induction props with
  | nil =>
    intro e _ hmem
    cases hmem
  | cons mp rest ih =>
    intro e hnd hmem
    rcases List.mem_cons.mp hmem with heq | hrest
    · subst heq
      rw [colKeys_cons_column] at hnd
      have hnotin : p.key ∉ colKeys rest := (List.nodup_cons.mp hnd).1
      simp only [updateProps]
      rw [updateProps_getattr_not_mem f rest _ _ hnotin]
      by_cases hg : p.col0.isGeometry
      · cases hfg : f.geometry <;>
          simp [updateStep, updateVal, hg, hfg, Entity.getattr, Entity.setattr,
            dlookup_dinsert_self]
      · by_cases hpk : p.col0.primary_key
        · simp [updateStep, updateVal, hg, hpk]
        · by_cases hc : dcontains f.properties p.key = true
          · simp [updateStep, updateVal, hg, hpk, hc, getattr_setattr_self]
          · simp [updateStep, updateVal, hg, hpk, hc]
    · have hnd' : (colKeys rest).Nodup := by
        cases mp with
        | column q =>
          rw [colKeys_cons_column] at hnd
          exact (List.nodup_cons.mp hnd).2
        | relationship r =>
          rw [colKeys_cons_rel] at hnd
          exact hnd
      have hne : mp.keyOf ≠ some p.key := by
        cases mp with
        | column q =>
          rw [colKeys_cons_column] at hnd
          intro hk
          have hqk : q.key = p.key := by
            simpa [MappedProperty.keyOf] using hk
          exact (List.nodup_cons.mp hnd).1 (hqk ▸ colKeys_of_mem hrest)
        | relationship r => simp [MappedProperty.keyOf]
      simp only [updateProps]
      rw [ih (updateStep f e mp) hnd' hrest,
        updateStep_getattr_ne f e mp p.key hne]

theorem updateStep_shapeAttr_of_not_geom (f : Feature) (e : Entity)
    (mp : MappedProperty) (h : hasGeomColProp mp = false) :
    (updateStep f e mp).shapeAttr = e.shapeAttr := by
  cases mp with
  | relationship r => rfl
  | column p =>
    have hg : p.col0.isGeometry = false := by simpa [hasGeomColProp] using h
    by_cases hpk : p.col0.primary_key
    · simp [updateStep, hg, hpk]
    · by_cases hc : dcontains f.properties p.key = true <;>
        simp [updateStep, hg, hpk, hc, Entity.setattr]

theorem updateStep_shapeAttr_geom (f : Feature) (e : Entity)
    (p : ColumnProperty) (g : Geom) (hf : f.geometry = .fgeom g)
    (hg : p.col0.isGeometry = true) :
    (updateStep f e (.column p)).shapeAttr = some (asShape g) := by
  simp [updateStep, hg, hf]

theorem updateProps_shapeAttr_stay (f : Feature) (props : List MappedProperty)
    (g : Geom) (hf : f.geometry = .fgeom g) :
    ∀ e : Entity, e.shapeAttr = some (asShape g) →
      (updateProps f props e).shapeAttr = some (asShape g) := by
  induction props with
  | nil =>
    intro e he
    exact he
  | cons mp rest ih =>
    intro e he
    simp only [updateProps]
    apply ih
    cases hmp : hasGeomColProp mp
    · rw [updateStep_shapeAttr_of_not_geom f e mp hmp]
      exact he
    · cases mp with
      | relationship r => simp [hasGeomColProp] at hmp
      | column p =>
        exact updateStep_shapeAttr_geom f e p g hf
          (by simpa [hasGeomColProp] using hmp)

theorem updateProps_shapeAttr_of_geom (f : Feature)
    (props : List MappedProperty) (g : Geom) (hf : f.geometry = .fgeom g) :
    ∀ e : Entity, hasGeomCol props = true →
      (updateProps f props e).shapeAttr = some (asShape g) := by
  induction props with
  | nil =>
    intro e hc
    simp [hasGeomCol] at hc
  | cons mp rest ih =>
    intro e hc
    simp only [updateProps]
    cases hmp : hasGeomColProp mp
    · have hrest : hasGeomCol rest = true := by
        simpa [hasGeomCol, hmp] using hc
      exact ih (updateStep f e mp) hrest
    · cases mp with
      | relationship r => simp [hasGeomColProp] at hmp
      | column p =>
        apply updateProps_shapeAttr_stay f rest g hf
        exact updateStep_shapeAttr_geom f e p g hf
          (by simpa [hasGeomColProp] using hmp)

theorem setAddProps_getattr (f : Feature) (l : List String) :
    ∀ (e : Entity) (k : String),
      (setAddProps f l e).getattr k =
        if k ∈ l then (dlookup f.properties k).getD Value.vnone
        else e.getattr k := by
  induction l with
  | nil =>
    intro e k
    simp [setAddProps]
  | cons k' rest ih =>
    intro e k
    simp only [setAddProps]
    rw [ih]
    by_cases hk : k ∈ rest
    · simp [hk, List.mem_cons]
    · by_cases hk' : k = k'
      · subst hk'
        simp [hk, getattr_setattr_self]
      · simp [hk, hk', getattr_setattr_ne _ _ _ _ hk']

theorem setAddProps_shapeAttr (f : Feature) (l : List String) :
    ∀ e : Entity, (setAddProps f l e).shapeAttr = e.shapeAttr := by
  induction l with
  | nil =>
    intro e
    rfl
  | cons k rest ih =>
    intro e
    simp only [setAddProps]
    rw [ih]
    rfl

/-! ### Primary-key lemmas -/

theorem primaryKeyLoop_mem (props : List MappedProperty) :
    ∀ (acc : Option String) (k : String), primaryKeyLoop props acc = some k →
      (∃ p : ColumnProperty, MappedProperty.column p ∈ props ∧ p.key = k ∧
        p.col0.primary_key = true) ∨ acc = some k := by
  induction props with
  | nil =>
    intro acc k h
    exact Or.inr h
  | cons mp rest ih =>
    intro acc k h
    cases mp with
    | relationship r =>
      rcases ih acc k (by simpa [primaryKeyLoop] using h) with ⟨p, hp, hk, hpk⟩ | hacc
      · exact Or.inl ⟨p, List.mem_cons_of_mem _ hp, hk, hpk⟩
      · exact Or.inr hacc
    | column q =>
      by_cases hq : q.col0.primary_key
      · rcases ih (some q.key) k (by simpa [primaryKeyLoop, hq] using h) with
          ⟨p, hp, hk, hpk⟩ | hacc
        · exact Or.inl ⟨p, List.mem_cons_of_mem _ hp, hk, hpk⟩
        · exact Or.inl ⟨q, List.mem_cons_self _ _, Option.some.inj hacc, hq⟩
      · rcases ih acc k (by simpa [primaryKeyLoop, hq] using h) with
          ⟨p, hp, hk, hpk⟩ | hacc
        · exact Or.inl ⟨p, List.mem_cons_of_mem _ hp, hk, hpk⟩
        · exact Or.inr hacc

theorem readIdRef_primaryKeyLoop (e : Entity) (props : List MappedProperty) :
    ∀ (acc : Option String) (i : Value),
      readIdRef e props (match acc with | some k => e.getattr k | none => i) =
        (match primaryKeyLoop props acc with
          | some k => e.getattr k
          | none => i) := by
  induction props with
  | nil =>
    intro acc i
    rfl
  | cons mp rest ih =>
    intro acc i
    cases mp with
    | relationship r => simpa [readIdRef, primaryKeyLoop] using ih acc i
    | column q =>
      by_cases hq : q.col0.primary_key
      · simpa [readIdRef, primaryKeyLoop, hq] using ih (some q.key) i
      · simpa [readIdRef, primaryKeyLoop, hq] using ih acc i

theorem readIdRef_eq (e : Entity) (props : List MappedProperty) (i : Value) :
    readIdRef e props i =
      (match primaryKeyLoop props none with
        | some k => e.getattr k
        | none => i) :=
  readIdRef_primaryKeyLoop e props none i

/-! ### `__read__` geometry lemmas -/

theorem readGeomRef_cached_stay (e : Entity) (s : Shape)
    (hs : e.shapeAttr = some s) :
    ∀ props : List MappedProperty, readGeomRef e props (some s) = some s := by
  intro props
  induction props with
  | nil => rfl
  | cons mp rest ih =>
    cases mp with
    | relationship r => simpa [readGeomRef] using ih
    | column q =>
      by_cases hpk : q.col0.primary_key
      · simpa [readGeomRef, hpk] using ih
      · by_cases hg : q.col0.isGeometry
        · simpa [readGeomRef, hpk, hg, hs] using ih
        · simpa [readGeomRef, hpk, hg] using ih

theorem readGeomRef_cached (e : Entity) (s : Shape)
    (hs : e.shapeAttr = some s) :
    ∀ (props : List MappedProperty) (g0 : Option Shape),
      hasNonPkGeomCol props = true → readGeomRef e props g0 = some s := by
  intro props
  induction props with
  | nil =>
    intro g0 hc
    simp [hasNonPkGeomCol] at hc
  | cons mp rest ih =>
    intro g0 hc
    cases hmp : isNonPkGeomColProp mp
    · have hrest : hasNonPkGeomCol rest = true := by
        simpa [hasNonPkGeomCol, hmp] using hc
      cases mp with
      | relationship r => simpa [readGeomRef] using ih g0 hrest
      | column q =>
        by_cases hpk : q.col0.primary_key
        · simpa [readGeomRef, hpk] using ih g0 hrest
        · have hg : q.col0.isGeometry = false := by
            simpa [isNonPkGeomColProp, hpk] using hmp
          simpa [readGeomRef, hpk, hg] using ih g0 hrest
    · cases mp with
      | relationship r => simp [isNonPkGeomColProp] at hmp
      | column q =>
        simp only [isNonPkGeomColProp, Bool.and_eq_true, Bool.not_eq_true'] at hmp
        simp only [readGeomRef, hmp.1, hmp.2, hs, if_false, if_true]
        exact readGeomRef_cached_stay e s hs rest

theorem readGeomRef_unique_vgeom_stay (e : Entity) (p : ColumnProperty)
    (w : WKBElement) (hcache : e.shapeAttr = none)
    (hval : e.getattr p.key = .vgeom w) :
    ∀ props : List MappedProperty,
      (∀ mp ∈ props, isNonPkGeomColProp mp = true → mp = .column p) →
      readGeomRef e props (some (to_shape w)) = some (to_shape w) := by
  intro props
  induction props with
  | nil =>
    intro _
    rfl
  | cons mp rest ih =>
    intro hu
    have hurest : ∀ mp' ∈ rest, isNonPkGeomColProp mp' = true →
        mp' = MappedProperty.column p :=
      fun mp' hm hp => hu mp' (List.mem_cons_of_mem _ hm) hp
    cases mp with
    | relationship r => simpa [readGeomRef] using ih hurest
    | column q =>
      by_cases hpk : q.col0.primary_key
      · simpa [readGeomRef, hpk] using ih hurest
      · by_cases hg : q.col0.isGeometry
        · have heqq : MappedProperty.column q = .column p :=
            hu _ (List.mem_cons_self _ _)
              (by simp [isNonPkGeomColProp, hpk, hg])
          have hq : q = p := by injection heqq
          rw [hq] at hpk hg ⊢
          simpa [readGeomRef, hpk, hg, hcache, hval] using ih hurest
        · simpa [readGeomRef, hpk, hg] using ih hurest

theorem readGeomRef_unique_other_stay (e : Entity) (p : ColumnProperty)
    (hcache : e.shapeAttr = none)
    (hval : ∀ w : WKBElement, e.getattr p.key ≠ .vgeom w) :
    ∀ (props : List MappedProperty) (g0 : Option Shape),
      (∀ mp ∈ props, isNonPkGeomColProp mp = true → mp = .column p) →
      readGeomRef e props g0 = g0 := by
  intro props
  induction props with
  | nil =>
    intro g0 _
    rfl
  | cons mp rest ih =>
    intro g0 hu
    have hurest : ∀ mp' ∈ rest, isNonPkGeomColProp mp' = true →
        mp' = MappedProperty.column p :=
      fun mp' hm hp => hu mp' (List.mem_cons_of_mem _ hm) hp
    cases mp with
    | relationship r => simpa [readGeomRef] using ih g0 hurest
    | column q =>
      by_cases hpk : q.col0.primary_key
      · simpa [readGeomRef, hpk] using ih g0 hurest
      · by_cases hg : q.col0.isGeometry
        · have heqq : MappedProperty.column q = .column p :=
            hu _ (List.mem_cons_self _ _)
              (by simp [isNonPkGeomColProp, hpk, hg])
          have hq : q = p := by injection heqq
          rw [hq] at hpk hg ⊢
          cases hv : e.getattr p.key with
          | vnone => simpa [readGeomRef, hpk, hg, hcache, hv] using ih g0 hurest
          | vint n => simpa [readGeomRef, hpk, hg, hcache, hv] using ih g0 hurest
          | vstr s => simpa [readGeomRef, hpk, hg, hcache, hv] using ih g0 hurest
          | vgeom w => exact absurd hv (hval w)
        · simpa [readGeomRef, hpk, hg] using ih g0 hurest

theorem readGeomRef_unique (e : Entity) (p : ColumnProperty)
    (hcache : e.shapeAttr = none)
    (hp : isNonPkGeomColProp (.column p) = true) :
    ∀ (props : List MappedProperty) (g0 : Option Shape),
      (∀ mp ∈ props, isNonPkGeomColProp mp = true → mp = .column p) →
      MappedProperty.column p ∈ props →
      readGeomRef e props g0 =
        (match e.getattr p.key with
          | .vgeom w => some (to_shape w)
          | _ => g0) := by
  intro props
  induction props with
  | nil =>
    intro g0 _ hmem
    cases hmem
  | cons mp rest ih =>
    intro g0 hu hmem
    have hurest : ∀ mp' ∈ rest, isNonPkGeomColProp mp' = true →
        mp' = MappedProperty.column p :=
      fun mp' hm hip => hu mp' (List.mem_cons_of_mem _ hm) hip
    cases hmpp : isNonPkGeomColProp mp
    · have hmem' : MappedProperty.column p ∈ rest := by
        rcases List.mem_cons.mp hmem with heq | h
        · rw [← heq] at hmpp
          rw [hp] at hmpp
          cases hmpp
        · exact h
      cases mp with
      | relationship r => simpa [readGeomRef] using ih g0 hurest hmem'
      | column q =>
        by_cases hpk : q.col0.primary_key
        · simpa [readGeomRef, hpk] using ih g0 hurest hmem'
        · have hg : q.col0.isGeometry = false := by
            simpa [isNonPkGeomColProp, hpk] using hmpp
          simpa [readGeomRef, hpk, hg] using ih g0 hurest hmem'
    · cases mp with
      | relationship r => simp [isNonPkGeomColProp] at hmpp
      | column q =>
        have heqq : MappedProperty.column q = .column p :=
          hu _ (List.mem_cons_self _ _) hmpp
        have hq : q = p := by injection heqq
        rw [hq]
        simp only [isNonPkGeomColProp, Bool.and_eq_true, Bool.not_eq_true'] at hp
        cases hv : e.getattr p.key with
        | vgeom w =>
          simp only [readGeomRef, hp.1, hp.2, hcache, hv, if_false, if_true]
          exact readGeomRef_unique_vgeom_stay e p w hcache hv rest hurest
        | vnone =>
          simp only [readGeomRef, hp.1, hp.2, hcache, hv, if_false, if_true]
          exact readGeomRef_unique_other_stay e p hcache
            (fun w hw => by rw [hv] at hw; cases hw) rest g0 hurest
        | vint n =>
          simp only [readGeomRef, hp.1, hp.2, hcache, hv, if_false, if_true]
          exact readGeomRef_unique_other_stay e p hcache
            (fun w hw => by rw [hv] at hw; cases hw) rest g0 hurest
        | vstr s =>
          simp only [readGeomRef, hp.1, hp.2, hcache, hv, if_false, if_true]
          exact readGeomRef_unique_other_stay e p hcache
            (fun w hw => by rw [hv] at hw; cases hw) rest g0 hurest

/-! ### `__read__` properties lemmas -/

theorem plainKeyIn_sub (props : List MappedProperty) (k : String)
    (h : plainKeyIn props k = true) : k ∈ colKeys props := by
  simp only [plainKeyIn, List.any_eq_true] at h
  obtain ⟨mp, hmem, hpred⟩ := h
  cases mp with
  | relationship r => simp [isPlainColPropFor] at hpred
  | column p =>
    simp only [isPlainColPropFor, Bool.and_eq_true, decide_eq_true_eq] at hpred
    exact hpred.1.1.1 ▸ colKeys_of_mem hmem

theorem readPropsRef_not_plain (e : Entity) (k : String) :
    ∀ (props : List MappedProperty) (d : List (String × Value)),
      plainKeyIn props k = false →
      dlookup (readPropsRef e props d) k = dlookup d k := by
  intro props
  induction props with
  | nil =>
    intro d _
    rfl
  | cons mp rest ih =>
    intro d h
    simp only [plainKeyIn, List.any_cons, Bool.or_eq_false_iff] at h
    have hrest : plainKeyIn rest k = false := h.2
    cases mp with
    | relationship r => simpa [readPropsRef] using ih d hrest
    | column q =>
      by_cases hpk : q.col0.primary_key
      · simpa [readPropsRef, hpk] using ih d hrest
      · by_cases hg : q.col0.isGeometry
        · simpa [readPropsRef, hpk, hg] using ih d hrest
        · by_cases hfk : q.col0.foreign_keys
          · simpa [readPropsRef, hpk, hg, hfk] using ih d hrest
          · have hqk : ¬(q.key = k) := by
              have h1 := h.1
              simp only [isPlainColPropFor, hpk, hg, hfk, Bool.not_false,
                Bool.and_true, decide_eq_false_iff_not] at h1
              exact h1
            simp [readPropsRef, hpk, hg, hfk]
            rw [ih _ hrest, dlookup_dinsert_ne _ _ _ _ (fun hkk => hqk hkk.symm)]

theorem readPropsRef_plain (e : Entity) (p : ColumnProperty)
    (hpk : p.col0.primary_key = false) (hg : p.col0.isGeometry = false)
    (hfk : p.col0.foreign_keys = false) :
    ∀ (props : List MappedProperty) (d : List (String × Value)),
      (colKeys props).Nodup → MappedProperty.column p ∈ props →
      dlookup (readPropsRef e props d) p.key = some (e.getattr p.key) := by
  intro props
  induction props with
  | nil =>
    intro d _ hmem
    cases hmem
  | cons mp rest ih =>
    intro d hnd hmem
    rcases List.mem_cons.mp hmem with heq | hrest
    · subst heq
      rw [colKeys_cons_column] at hnd
      have hnotin : p.key ∉ colKeys rest := (List.nodup_cons.mp hnd).1
      have hplain : plainKeyIn rest p.key = false := by
        cases hq : plainKeyIn rest p.key
        · rfl
        · exact absurd (plainKeyIn_sub _ _ hq) hnotin
      simp [readPropsRef, hpk, hg, hfk]
      rw [readPropsRef_not_plain e p.key rest _ hplain, dlookup_dinsert_self]
    · have hnd' : (colKeys rest).Nodup := by
        cases mp with
        | column q =>
          rw [colKeys_cons_column] at hnd
          exact (List.nodup_cons.mp hnd).2
        | relationship r =>
          rw [colKeys_cons_rel] at hnd
          exact hnd
      cases mp with
      | relationship r => simpa [readPropsRef] using ih d hnd' hrest
      | column q =>
        by_cases hqpk : q.col0.primary_key
        · simpa [readPropsRef, hqpk] using ih d hnd' hrest
        · by_cases hqg : q.col0.isGeometry
          · simpa [readPropsRef, hqpk, hqg] using ih d hnd' hrest
          · by_cases hqfk : q.col0.foreign_keys
            · simpa [readPropsRef, hqpk, hqg, hqfk] using ih d hnd' hrest
            · simpa [readPropsRef, hqpk, hqg, hqfk] using
                ih (dinsert d q.key (e.getattr q.key)) hnd' hrest

theorem dlookup_insertAddProps (e : Entity) (l : List String) :
    ∀ (d : List (String × Value)) (k : String),
      dlookup (insertAddProps e l d) k =
        if k ∈ l then some (e.getattr k) else dlookup d k := by
  induction l with
  | nil =>
    intro d k
    simp [insertAddProps]
  | cons k' rest ih =>
    intro d k
    simp only [insertAddProps]
    rw [ih]
    by_cases hk : k ∈ rest
    · simp [hk]
    · by_cases hk' : k = k'
      · subst hk'
        simp [hk, dlookup_dinsert_self]
      · simp [hk, hk', dlookup_dinsert_ne _ _ _ _ hk']

/-! ### The `__read__` loop agrees with the reference locals -/

theorem readLoop_eq_refs (e : Entity) :
    ∀ props : List MappedProperty, readSafe e props = true →
      ∀ (i : Value) (g : Option Shape) (d : List (String × Value)),
      readLoop pyToShape e props i g d =
        .ok (readIdRef e props i, readGeomRef e props g, readPropsRef e props d) := by
  intro props
  induction props with
  | nil =>
    intro _ i g d
    rfl
  | cons mp rest ih =>
    intro h i g d
    have h1 : readSafeProp e mp = true ∧ readSafe e rest = true := by
      simpa [readSafe, List.all_cons, Bool.and_eq_true] using h
    cases mp with
    | relationship r =>
      simpa [readLoop, readIdRef, readGeomRef, readPropsRef] using ih h1.2 i g d
    | column p =>
      have hmc : p.moreCols = [] := by
        have h2 := h1.1
        simp only [readSafeProp, Bool.and_eq_true, List.isEmpty_iff] at h2
        exact h2.1
      by_cases hpk : p.col0.primary_key
      · simpa [readLoop, hmc, hpk, readIdRef, readGeomRef, readPropsRef] using
          ih h1.2 (e.getattr p.key) g d
      · by_cases hg : p.col0.isGeometry
        · cases hs : e.shapeAttr with
          | some s =>
            simpa [readLoop, hmc, hpk, hg, hs, readIdRef, readGeomRef,
              readPropsRef] using ih h1.2 i (some s) d
          | none =>
            have hval : (e.getattr p.key).isGeomOrNone = true := by
              have h2 := h1.1
              simp only [readSafeProp, hmc, hpk, hg, hs, List.isEmpty_nil,
                Bool.true_and, Bool.false_or, Bool.not_true, Option.isSome_none,
                Bool.or_eq_true] at h2
              simpa using h2
            cases hv : e.getattr p.key with
            | vnone =>
              simpa [readLoop, hmc, hpk, hg, hs, hv, readIdRef, readGeomRef,
                readPropsRef] using ih h1.2 i g d
            | vgeom w =>
              simpa [readLoop, hmc, hpk, hg, hs, hv, pyToShape, readIdRef,
                readGeomRef, readPropsRef] using ih h1.2 i (some (to_shape w)) d
            | vint n =>
              rw [hv] at hval
              simp [Value.isGeomOrNone] at hval
            | vstr s =>
              rw [hv] at hval
              simp [Value.isGeomOrNone] at hval
        · by_cases hfk : p.col0.foreign_keys
          · simpa [readLoop, hmc, hpk, hg, hfk, readIdRef, readGeomRef,
              readPropsRef] using ih h1.2 i g d
          · simpa [readLoop, hmc, hpk, hg, hfk, readIdRef, readGeomRef,
              readPropsRef] using ih h1.2 i g (dinsert d p.key (e.getattr p.key))

/-! ### Sufficient conditions for a safe read -/

theorem readSafe_of_cached (e : Entity) (props : List MappedProperty)
    (hall : props.all wfProp = true) (hs : e.shapeAttr.isSome = true) :
    readSafe e props = true := by
  simp only [readSafe, List.all_eq_true] at hall ⊢
  intro mp hmem
  have hw := hall mp hmem
  cases mp with
  | relationship r => rfl
  | column p =>
    simp only [wfProp, Bool.and_eq_true] at hw
    simp [readSafeProp, hw.1, hs]

theorem readSafe_of_geom_vals (e : Entity) (props : List MappedProperty)
    (hall : props.all wfProp = true)
    (hvals : ∀ p' : ColumnProperty, MappedProperty.column p' ∈ props →
      p'.col0.primary_key = false → p'.col0.isGeometry = true →
      (e.getattr p'.key).isGeomOrNone = true) :
    readSafe e props = true := by
  simp only [readSafe, List.all_eq_true]
  intro mp hmem
  have hw := List.all_eq_true.mp hall mp hmem
  cases mp with
  | relationship r => rfl
  | column p =>
    simp only [wfProp, Bool.and_eq_true] at hw
    cases hpk : p.col0.primary_key
    · cases hg : p.col0.isGeometry
      · simp [readSafeProp, hw.1, hpk, hg]
      · have hv := hvals p hmem hpk hg
        simp [readSafeProp, hw.1, hpk, hg, hv]
    · simp [readSafeProp, hw.1, hpk]

/-- `__read__` succeeds on a safe entity and returns exactly the
reference feature. -/
theorem read_ok (m : Mapper) (addProps : List String) (e : Entity)
    (h : readSafe e m.props = true) :
    GeoInterface.read m addProps e =
      .ok ⟨readIdRef e m.props Value.vnone, readGeomRef e m.props none,
           insertAddProps e addProps (readPropsRef e m.props [])⟩ := by
  simp [GeoInterface.read, GeoInterface.readE, readLoop_eq_refs e m.props h]

theorem hasGeomCol_of_nonPk (props : List MappedProperty)
    (h : hasNonPkGeomCol props = true) : hasGeomCol props = true := by
  simp only [hasNonPkGeomCol, List.any_eq_true] at h
  obtain ⟨mp, hmem, hpred⟩ := h
  simp only [hasGeomCol, List.any_eq_true]
  refine ⟨mp, hmem, ?_⟩
  cases mp with
  | relationship r => simp [isNonPkGeomColProp] at hpred
  | column q =>
    simp only [isNonPkGeomColProp, Bool.and_eq_true] at hpred
    simpa [hasGeomColProp] using hpred.2

/-! ### Propagation of `to_shape` errors through the `__read__` loop -/

theorem readLoop_propagates (toShape : Value → Except String Shape)
    (e : Entity) (p : ColumnProperty) (msg : String)
    (hcache : e.shapeAttr = none)
    (hp : isNonPkGeomColProp (.column p) = true)
    (hval : e.getattr p.key ≠ Value.vnone)
    (herr : toShape (e.getattr p.key) = .error msg) :
    ∀ props : List MappedProperty,
      props.all wfProp = true →
      (∀ mp ∈ props, isNonPkGeomColProp mp = true → mp = .column p) →
      MappedProperty.column p ∈ props →
      ∀ (i : Value) (g : Option Shape) (d : List (String × Value)),
        readLoop toShape e props i g d = .error msg := by
  have hpflags : p.col0.primary_key = false ∧ p.col0.isGeometry = true := by
    simpa [isNonPkGeomColProp, Bool.and_eq_true, Bool.not_eq_true'] using hp
  intro props
  induction props with
  | nil =>
    intro _ _ hmem
    cases hmem
  | cons mp rest ih =>
    intro hall hu hmem i g d
    have hall' : wfProp mp = true ∧ rest.all wfProp = true := by
      simpa [List.all_cons, Bool.and_eq_true] using hall
    have hurest : ∀ mp' ∈ rest, isNonPkGeomColProp mp' = true →
        mp' = MappedProperty.column p :=
      fun mp' hm hip => hu mp' (List.mem_cons_of_mem _ hm) hip
    cases mp with
    | relationship r =>
      have hmem' : MappedProperty.column p ∈ rest := by
        rcases List.mem_cons.mp hmem with heq | h
        · cases heq
        · exact h
      simpa [readLoop] using ih hall'.2 hurest hmem' i g d
    | column q =>
      have hmc : q.moreCols = [] := by
        have h2 := hall'.1
        simp only [wfProp, Bool.and_eq_true, List.isEmpty_iff] at h2
        exact h2.1
      by_cases hqpk : q.col0.primary_key
      · have hmem' : MappedProperty.column p ∈ rest := by
          rcases List.mem_cons.mp hmem with heq | h
          · have : p = q := by injection heq
            rw [this] at hpflags
            rw [hqpk] at hpflags
            cases hpflags.1
          · exact h
        simpa [readLoop, hmc, hqpk] using ih hall'.2 hurest hmem' (e.getattr q.key) g d
      · by_cases hqg : q.col0.isGeometry
        · have heqq : MappedProperty.column q = .column p :=
            hu _ (List.mem_cons_self _ _) (by simp [isNonPkGeomColProp, hqpk, hqg])
          have hq : q = p := by injection heqq
          rw [hq] at hmc hqpk hqg ⊢
          simp [readLoop, hmc, hqpk, hqg, hcache, hval, herr]
        · have hmem' : MappedProperty.column p ∈ rest := by
            rcases List.mem_cons.mp hmem with heq | h
            · have : p = q := by injection heq
              rw [this] at hpflags
              exact absurd hpflags.2 hqg
            · exact h
          by_cases hqfk : q.col0.foreign_keys
          · simpa [readLoop, hmc, hqpk, hqg, hqfk] using
              ih hall'.2 hurest hmem' i g d
          · simpa [readLoop, hmc, hqpk, hqg, hqfk] using
              ih hall'.2 hurest hmem' i g (dinsert d q.key (e.getattr q.key))

/-! ## Claim theorems -/

/-- C1 counterexample: the round-trip claim is false as stated.  On the
`Spot`-like class, the client feature supplies the non-primary-key,
non-geometry column property `type_id`, and `__update__` stores it on
the entity; but `__read__` skips foreign-key columns, so the feature
read back has no `type_id` property at all. -/
theorem C1_foreign_key_property_dropped :
    dcontains spotFeature.properties "type_id" = true ∧
    GeoInterface.init spotMapper [] (some spotFeature) Entity.fresh =
      some ⟨[("id", .vint 7),
             ("geom", .vgeom ⟨asShape ⟨[(1, 2)]⟩, 4326⟩),
             ("name", .vstr "spot"), ("type_id", .vint 5)],
            some (asShape ⟨[(1, 2)]⟩)⟩ ∧
    GeoInterface.read spotMapper []
      ⟨[("id", .vint 7),
        ("geom", .vgeom ⟨asShape ⟨[(1, 2)]⟩, 4326⟩),
        ("name", .vstr "spot"), ("type_id", .vint 5)],
       some (asShape ⟨[(1, 2)]⟩)⟩ =
      .ok ⟨.vint 7, some (asShape ⟨[(1, 2)]⟩), [("name", .vstr "spot")]⟩ ∧
    dlookup [("name", Value.vstr "spot")] "type_id" = none :=
  ⟨rfl, rfl, rfl, rfl⟩

/-- C1 (amended): for every well-formed mapped class with a geometry
column, and every GeoJSON feature with an id, a geometry, and
properties covering the mapped column properties, building an entity
with `__init__` and reading it back with `__read__` yields a feature
with the same id, an equivalent geometry, and the same value for every
supplied non-primary-key, non-geometry, **non-foreign-key** column
property (foreign-key columns are excluded by `__read__`). -/
theorem C1_round_trip_amended
    (m : Mapper) (addProps : List String) (f : Feature) (pkKey : String)
    (v : Value) (g : Geom) (p : ColumnProperty)
    (hwf : m.wf)
    (hpk : primaryKeyName m = some pkKey)
    (hid : f.id = some v) (hv : v ≠ Value.vnone)
    (hg : f.geometry = .fgeom g)
    (hgc : hasNonPkGeomCol m.props = true)
    (hdisj : ∀ k ∈ addProps, k ∉ colKeys m.props)
    (hmem : MappedProperty.column p ∈ m.props)
    (hppk : p.col0.primary_key = false) (hpg : p.col0.isGeometry = false)
    (hpfk : p.col0.foreign_keys = false)
    (hsup : dcontains f.properties p.key = true) :
    ∃ e', GeoInterface.init m addProps (some f) Entity.fresh = some e' ∧
      ∃ rf, GeoInterface.read m addProps e' = .ok rf ∧
        rf.id = v ∧ rf.geometry = some (asShape g) ∧
        dlookup rf.properties p.key = dlookup f.properties p.key := by
  obtain ⟨hall, hnd⟩ := hwf
  have hvalid : f.hasValidId = true := by
    simp [Feature.hasValidId, hid, hv]
  refine ⟨GeoInterface.update m addProps f (Entity.fresh.setattr pkKey v),
    by simp [GeoInterface.init, hvalid, hpk, hid], ?_⟩
  set e' := GeoInterface.update m addProps f (Entity.fresh.setattr pkKey v)
    with he'
  have hshape : e'.shapeAttr = some (asShape g) := by
    rw [he', GeoInterface.update, setAddProps_shapeAttr]
    exact updateProps_shapeAttr_of_geom f m.props g hg _
      (hasGeomCol_of_nonPk m.props hgc)
  have hsafe : readSafe e' m.props = true :=
    readSafe_of_cached e' m.props hall (by rw [hshape]; rfl)
  refine ⟨_, read_ok m addProps e' hsafe, ?_, ?_, ?_⟩
  · show readIdRef e' m.props Value.vnone = v
    rw [readIdRef_eq, show primaryKeyLoop m.props none = some pkKey from hpk]
    rcases primaryKeyLoop_mem m.props none pkKey hpk with
      ⟨pp, hppmem, hppkey, hpppk⟩ | hnone
    · have hppgeom : pp.col0.isGeometry = false := by
        have hw := List.all_eq_true.mp hall _ hppmem
        simp only [wfProp, Bool.and_eq_true] at hw
        have h2 := hw.2
        rw [hpppk] at h2
        simpa using h2
      have hknotin : pkKey ∉ addProps :=
        fun hin => hdisj pkKey hin (hppkey ▸ colKeys_of_mem hppmem)
      show e'.getattr pkKey = v
      rw [he', GeoInterface.update, setAddProps_getattr, if_neg hknotin,
        ← hppkey, updateProps_getattr_mem f m.props pp _ hnd hppmem]
      simp [updateVal, hppgeom, hpppk]
      rw [hppkey]
      exact getattr_setattr_self _ _ _
    · cases hnone
  · show readGeomRef e' m.props none = some (asShape g)
    exact readGeomRef_cached e' (asShape g) hshape m.props none hgc
  · show dlookup (insertAddProps e' addProps (readPropsRef e' m.props []))
        p.key = dlookup f.properties p.key
    have hknotin : p.key ∉ addProps :=
      fun hin => hdisj p.key hin (colKeys_of_mem hmem)
    rw [dlookup_insertAddProps, if_neg hknotin,
      readPropsRef_plain e' p hppk hpg hpfk m.props [] hnd hmem]
    have hget : e'.getattr p.key =
        (dlookup f.properties p.key).getD Value.vnone := by
      rw [he', GeoInterface.update, setAddProps_getattr, if_neg hknotin,
        updateProps_getattr_mem f m.props p _ hnd hmem]
      simp [updateVal, hpg, hppk, hsup]
    rw [hget]
    have hsome := hsup
    simp only [dcontains, Option.isSome_iff_exists] at hsome
    obtain ⟨w, hw⟩ := hsome
    rw [hw]
    rfl

/-- C1 witness: the amended round-trip instantiated on the `Spot`-like
class and a concrete feature. -/
theorem C1_round_trip_amended_witness :
    ∃ e', GeoInterface.init spotMapper [] (some spotFeature) Entity.fresh =
        some e' ∧
      ∃ rf, GeoInterface.read spotMapper [] e' = .ok rf ∧
        rf.id = Value.vint 7 ∧
        rf.geometry = some (asShape ⟨[(1, 2)]⟩) ∧
        dlookup rf.properties "name" = dlookup spotFeature.properties "name" :=
  C1_round_trip_amended spotMapper [] spotFeature "id" (Value.vint 7)
    ⟨[(1, 2)]⟩ nameProp ⟨by decide, by decide⟩ rfl rfl (by decide) rfl
    (by decide) (by decide) (by decide) rfl rfl rfl (by decide)

/-- C2: JSONP selection in the GeoJSON renderer.  When the response
content type is still the default: if the configured JSONP query
parameter is present with value `c`, the body is the GeoJSON
serialization wrapped as `c(<json>);` and the content type becomes
`text/javascript`; if it is absent, the body is the plain serialization
and the content type becomes `application/json`. -/
theorem C2_jsonp_selection
    (dumps : PyValue → String) (collection : List PyValue → PyValue)
    (jsonpParamName : String) (value : PyValue) (req : Request) (c : String)
    (hct : req.response.content_type = req.response.default_content_type) :
    (dlookup req.params jsonpParamName = some c →
      GeoJSON.render dumps collection jsonpParamName value (some req) =
        (c ++ "(" ++ dumps (wrapCollection collection value) ++ ");",
         some { req with response :=
           { req.response with content_type := "text/javascript" } })) ∧
    (dlookup req.params jsonpParamName = none →
      GeoJSON.render dumps collection jsonpParamName value (some req) =
        (dumps (wrapCollection collection value),
         some { req with response :=
           { req.response with content_type := "application/json" } })) := by
  constructor
  · intro hcb
    simp [GeoJSON.render, geojsonFinish, hct, hcb]
  · intro hcb
    simp [GeoJSON.render, geojsonFinish, hct, hcb]

/-- C2 witness: both branches at concrete requests. -/
theorem C2_jsonp_selection_witness :
    GeoJSON.render (fun _ => "JSON") PyValue.featureCollection "callback"
      (PyValue.raw "x") (some callbackRequest) =
      ("cb(JSON);",
       some ⟨[("callback", "cb")], ⟨"text/javascript", "text/html"⟩⟩) ∧
    GeoJSON.render (fun _ => "JSON") PyValue.featureCollection "callback"
      (PyValue.raw "x") (some plainRequest) =
      ("JSON", some ⟨[], ⟨"application/json", "text/html"⟩⟩) :=
  ⟨by simpa using
      (C2_jsonp_selection (fun _ => "JSON") PyValue.featureCollection
        "callback" (PyValue.raw "x") callbackRequest "cb" rfl).1 rfl,
   by simpa using
      (C2_jsonp_selection (fun _ => "JSON") PyValue.featureCollection
        "callback" (PyValue.raw "x") plainRequest "cb" rfl).2 rfl⟩

/-- C3 counterexample: the claim quantifies over invocations "with or
without a request in the system dictionary", but the XSD render
function invoked without a request returns Python `None` — no response
body — and sets no content type. -/
theorem C3_xsd_render_without_request :
    XSD.render (fun cls _ _ _ _ => cls) true false none none "spots" none =
      (none, none) := rfl

/-- C3 (amended): the GeoJSON render function always returns the
serialization as the body but sets the content type only when a
request is present whose response content type is still the default;
the XSD render function returns a body and sets the content type
(`application/xml`) exactly when a request is present, and returns
`None` (touching nothing) otherwise. -/
theorem C3_renderer_outputs :
    (∀ (dumps : PyValue → String) (collection : List PyValue → PyValue)
        (jpn : String) (value : PyValue),
      GeoJSON.render dumps collection jpn value none =
        (dumps (wrapCollection collection value), none)) ∧
    (∀ (dumps : PyValue → String) (collection : List PyValue → PyValue)
        (jpn : String) (value : PyValue) (req : Request),
      req.response.content_type ≠ req.response.default_content_type →
      GeoJSON.render dumps collection jpn value (some req) =
        (dumps (wrapCollection collection value), some req)) ∧
    (∀ (dumps : PyValue → String) (collection : List PyValue → PyValue)
        (jpn : String) (value : PyValue) (req : Request),
      req.response.content_type = req.response.default_content_type →
      ((GeoJSON.render dumps collection jpn value (some req)).2.map
          (fun r => r.response.content_type) = some "application/json" ∨
       (GeoJSON.render dumps collection jpn value (some req)).2.map
          (fun r => r.response.content_type) = some "text/javascript")) ∧
    (∀ (gen : String → Bool → Bool → Option String → Option String → String)
        (ipk ifk : Bool) (rcb pcb : Option String) (cls : String),
      XSD.render gen ipk ifk rcb pcb cls none = (none, none)) ∧
    (∀ (gen : String → Bool → Bool → Option String → Option String → String)
        (ipk ifk : Bool) (rcb pcb : Option String) (cls : String)
        (req : Request),
      XSD.render gen ipk ifk rcb pcb cls (some req) =
        (some (gen cls ipk ifk rcb pcb),
         some { req with response :=
           { req.response with content_type := "application/xml" } })) := by
  refine ⟨fun _ _ _ _ => rfl, ?_, ?_, fun _ _ _ _ _ _ => rfl,
    fun _ _ _ _ _ _ _ => rfl⟩
  · intro dumps collection jpn value req hct
    simp [GeoJSON.render, geojsonFinish, hct]
  · intro dumps collection jpn value req hct
    cases hcb : dlookup req.params jpn with
    | none =>
      left
      simp [GeoJSON.render, geojsonFinish, hct, hcb]
    | some c =>
      right
      simp [GeoJSON.render, geojsonFinish, hct, hcb]

/-- C3 witness: each conjunct at a concrete invocation. -/
theorem C3_renderer_outputs_witness :
    GeoJSON.render (fun _ => "JSON") PyValue.featureCollection "callback"
      (PyValue.raw "x") none = ("JSON", none) ∧
    GeoJSON.render (fun _ => "JSON") PyValue.featureCollection "callback"
      (PyValue.raw "x") (some styledRequest) = ("JSON", some styledRequest) ∧
    ((GeoJSON.render (fun _ => "JSON") PyValue.featureCollection "callback"
        (PyValue.raw "x") (some plainRequest)).2.map
        (fun r => r.response.content_type) = some "application/json" ∨
     (GeoJSON.render (fun _ => "JSON") PyValue.featureCollection "callback"
        (PyValue.raw "x") (some plainRequest)).2.map
        (fun r => r.response.content_type) = some "text/javascript") ∧
    XSD.render (fun cls _ _ _ _ => cls) false false none none "spots" none =
      (none, none) ∧
    XSD.render (fun cls _ _ _ _ => cls) false false none none "spots"
      (some plainRequest) =
      (some "spots", some ⟨[], ⟨"application/xml", "text/html"⟩⟩) :=
  ⟨C3_renderer_outputs.1 _ _ _ _,
   C3_renderer_outputs.2.1 _ _ _ _ styledRequest (by decide),
   C3_renderer_outputs.2.2.1 _ _ _ _ plainRequest rfl,
   C3_renderer_outputs.2.2.2.1 _ _ _ _ _ _,
   by simpa using
     C3_renderer_outputs.2.2.2.2 (fun cls _ _ _ _ => cls) false false none
       none "spots" plainRequest⟩

/-- C4: geometry column conversion.  (a) When the feature carries a
real geometry, `__update__` stores on each geometry-typed column the
spatial value obtained by converting the feature geometry to a shape
and encoding it with the column type's SRID.  (b) When an entity has a
non-`None` stored spatial value and no cached shape, `__read__` exposes
that value converted back to a shape. -/
theorem C4_geometry_column_conversion :
    (∀ (m : Mapper) (addProps : List String) (f : Feature) (e : Entity)
        (g : Geom) (p : ColumnProperty),
      (colKeys m.props).Nodup →
      f.geometry = .fgeom g →
      MappedProperty.column p ∈ m.props →
      p.col0.isGeometry = true →
      p.key ∉ addProps →
      (GeoInterface.update m addProps f e).getattr p.key =
        Value.vgeom (from_shape (asShape g) p.col0.srid)) ∧
    (∀ (m : Mapper) (addProps : List String) (e : Entity)
        (p : ColumnProperty) (w : WKBElement),
      m.props.all wfProp = true →
      e.shapeAttr = none →
      (∀ mp ∈ m.props, isNonPkGeomColProp mp = true →
        mp = MappedProperty.column p) →
      MappedProperty.column p ∈ m.props →
      isNonPkGeomColProp (MappedProperty.column p) = true →
      e.getattr p.key = Value.vgeom w →
      ∃ rf, GeoInterface.read m addProps e = .ok rf ∧
        rf.geometry = some (to_shape w)) := by
  constructor
  · intro m addProps f e g p hnd hg hmem hgeom hnin
    rw [GeoInterface.update, setAddProps_getattr, if_neg hnin,
      updateProps_getattr_mem f m.props p _ hnd hmem]
    simp [updateVal, hgeom, hg]
  · intro m addProps e p w hall hcache hu hmem hp hval
    have hsafe : readSafe e m.props = true := by
      apply readSafe_of_geom_vals e m.props hall
      intro p' hmem' hpk' hg'
      have heqq : MappedProperty.column p' = .column p :=
        hu _ hmem' (by simp [isNonPkGeomColProp, hpk', hg'])
      have hpp : p' = p := by injection heqq
      rw [hpp, hval]
      rfl
    refine ⟨_, read_ok m addProps e hsafe, ?_⟩
    show readGeomRef e m.props none = some (to_shape w)
    rw [readGeomRef_unique e p hcache hp m.props none hu hmem, hval]

/-- C4 witness: both directions on the `Spot`-like class. -/
theorem C4_geometry_column_conversion_witness :
    (GeoInterface.update spotMapper [] spotFeature Entity.fresh).getattr
      "geom" = Value.vgeom (from_shape (asShape ⟨[(1, 2)]⟩) 4326) ∧
    ∃ rf, GeoInterface.read spotMapper [] storedOnlyEntity = .ok rf ∧
      rf.geometry = some (to_shape ⟨⟨⟨[(4, 4)]⟩⟩, 4326⟩) :=
  ⟨by simpa using
     C4_geometry_column_conversion.1 spotMapper [] spotFeature Entity.fresh
       ⟨[(1, 2)]⟩ geomProp (by decide) rfl (by decide) rfl (by decide),
   C4_geometry_column_conversion.2 spotMapper [] storedOnlyEntity geomProp
     ⟨⟨⟨[(4, 4)]⟩⟩, 4326⟩ (by decide) rfl (by decide) (by decide) (by decide)
     rfl⟩

/-- C5 counterexample: the claim promises that `__read__` "returns a
GeoJSON Feature" for every entity whose column properties span one
column each, but on an entity whose geometry column holds a non-`None`
non-spatial value (and no cached shape) `__read__` raises the library's
conversion error instead of returning a feature. -/
theorem C5_read_raises_on_ill_typed_geometry :
    GeoInterface.read spotMapper [] badGeomEntity =
      .error "to_shape failed" := rfl

/-- C5 (amended): for every well-formed mapped class and every entity
whose geometry column holds `None` or a spatial value whenever no
shape is cached, `__read__` returns a Feature with exactly the fields
`id`, `geometry` and `properties`: `id` is the primary-key column's
value; `geometry` is the cached shape if present, else the conversion
of the stored geometry column value; and `properties` holds, at any
key `k`, the entity's value exactly when `k` is listed in
`__add_properties__` or is a non-primary-key, non-geometry,
non-foreign-key column property, and nothing otherwise. -/
theorem C5_read_feature_characterization
    (m : Mapper) (addProps : List String) (e : Entity) (pkKey : String)
    (p : ColumnProperty) (k : String)
    (hwf : m.wf)
    (hpk : primaryKeyName m = some pkKey)
    (hu : ∀ mp ∈ m.props, isNonPkGeomColProp mp = true →
      mp = MappedProperty.column p)
    (hmem : MappedProperty.column p ∈ m.props)
    (hp : isNonPkGeomColProp (MappedProperty.column p) = true)
    (hsafe0 : e.shapeAttr = none → (e.getattr p.key).isGeomOrNone = true) :
    ∃ rf, GeoInterface.read m addProps e = .ok rf ∧
      rf.id = e.getattr pkKey ∧
      rf.geometry = (match e.shapeAttr with
        | some s => some s
        | none =>
          match e.getattr p.key with
          | .vgeom w => some (to_shape w)
          | _ => none) ∧
      dlookup rf.properties k =
        (if k ∈ addProps then some (e.getattr k)
         else if plainKeyIn m.props k = true then some (e.getattr k)
         else none) := by
  obtain ⟨hall, hnd⟩ := hwf
  have hsafe : readSafe e m.props = true := by
    cases hs : e.shapeAttr with
    | some s => exact readSafe_of_cached e m.props hall (by rw [hs]; rfl)
    | none =>
      apply readSafe_of_geom_vals e m.props hall
      intro p' hmem' hpk' hg'
      have heqq : MappedProperty.column p' = .column p :=
        hu _ hmem' (by simp [isNonPkGeomColProp, hpk', hg'])
      have hpp : p' = p := by injection heqq
      rw [hpp]
      exact hsafe0 hs
  refine ⟨_, read_ok m addProps e hsafe, ?_, ?_, ?_⟩
  · show readIdRef e m.props Value.vnone = e.getattr pkKey
    rw [readIdRef_eq, show primaryKeyLoop m.props none = some pkKey from hpk]
  · show readGeomRef e m.props none = _
    cases hs : e.shapeAttr with
    | some s =>
      rw [readGeomRef_cached e s hs m.props none
        (List.any_eq_true.mpr ⟨_, hmem, hp⟩)]
    | none =>
      rw [readGeomRef_unique e p hs hp m.props none hu hmem]
  · show dlookup (insertAddProps e addProps (readPropsRef e m.props [])) k = _
    rw [dlookup_insertAddProps]
    by_cases hka : k ∈ addProps
    · simp [hka]
    · rw [if_neg hka, if_neg hka]
      cases hq : plainKeyIn m.props k with
      | true =>
        rw [if_pos rfl]
        have hex := List.any_eq_true.mp (by simpa [plainKeyIn] using hq)
        obtain ⟨mp, hmemq, hpredq⟩ := hex
        cases mp with
        | relationship r => simp [isPlainColPropFor] at hpredq
        | column q =>
          simp only [isPlainColPropFor, Bool.and_eq_true, decide_eq_true_eq,
            Bool.not_eq_true'] at hpredq
          obtain ⟨⟨⟨hqk, hqpk⟩, hqg⟩, hqfk⟩ := hpredq
          rw [← hqk]
          rw [readPropsRef_plain e q hqpk hqg hqfk m.props [] hnd hmemq]
      | false =>
        rw [if_neg (by simp)]
        rw [readPropsRef_not_plain e k m.props [] hq]
        rfl

/-- C5 witness: the characterization on the `Spot`-like class, at a
plain key and at a foreign-key key. -/
theorem C5_read_feature_characterization_witness :
    (∃ rf, GeoInterface.read spotMapper [] storedOnlyEntity = .ok rf ∧
      rf.id = storedOnlyEntity.getattr "id" ∧
      rf.geometry = (match storedOnlyEntity.shapeAttr with
        | some s => some s
        | none =>
          match storedOnlyEntity.getattr "geom" with
          | .vgeom w => some (to_shape w)
          | _ => none) ∧
      dlookup rf.properties "name" =
        (if "name" ∈ ([] : List String) then
          some (storedOnlyEntity.getattr "name")
         else if plainKeyIn spotMapper.props "name" = true then
          some (storedOnlyEntity.getattr "name")
         else none)) ∧
    (∃ rf, GeoInterface.read spotMapper [] storedOnlyEntity = .ok rf ∧
      rf.id = storedOnlyEntity.getattr "id" ∧
      rf.geometry = (match storedOnlyEntity.shapeAttr with
        | some s => some s
        | none =>
          match storedOnlyEntity.getattr "geom" with
          | .vgeom w => some (to_shape w)
          | _ => none) ∧
      dlookup rf.properties "type_id" =
        (if "type_id" ∈ ([] : List String) then
          some (storedOnlyEntity.getattr "type_id")
         else if plainKeyIn spotMapper.props "type_id" = true then
          some (storedOnlyEntity.getattr "type_id")
         else none)) :=
  ⟨C5_read_feature_characterization spotMapper [] storedOnlyEntity "id"
      geomProp "name" ⟨by decide, by decide⟩ rfl (by decide) (by decide)
      (by decide) (fun _ => by decide),
   C5_read_feature_characterization spotMapper [] storedOnlyEntity "id"
      geomProp "type_id" ⟨by decide, by decide⟩ rfl (by decide) (by decide)
      (by decide) (fun _ => by decide)⟩

/-- C6 counterexample: `__read__` does maintain a cache.  On an entity
whose `_shape` attribute disagrees with the stored geometry column
value, `__read__` returns the cached shape, not the cache-free
derivation from the currently stored value. -/
theorem C6_stale_cache_counterexample :
    GeoInterface.read spotMapper [] staleEntity =
      .ok ⟨.vint 1, some ⟨⟨[(0, 0)]⟩⟩, [("name", Value.vnone)]⟩ ∧
    cacheFreeGeom staleEntity "geom" = some ⟨⟨[(9, 9)]⟩⟩ ∧
    some (⟨⟨[(0, 0)]⟩⟩ : Shape) ≠ some (⟨⟨[(9, 9)]⟩⟩ : Shape) :=
  ⟨rfl, rfl, by decide⟩

/-- C6 (amended): `__read__` consults the `_shape` cache first.  For
every entity without a cached shape it derives the geometry from the
currently stored geometry column value exactly as the cache-free
reference prescribes; and for every entity freshly written by
`__update__` with a real geometry the cache agrees with the stored
value, so the cache-free reference is still matched.  Only an entity
whose cache was left stale (the stored value changed behind it)
diverges. -/
theorem C6_geometry_from_stored_value :
    (∀ (m : Mapper) (addProps : List String) (e : Entity)
        (p : ColumnProperty),
      m.props.all wfProp = true →
      e.shapeAttr = none →
      (∀ mp ∈ m.props, isNonPkGeomColProp mp = true →
        mp = MappedProperty.column p) →
      MappedProperty.column p ∈ m.props →
      isNonPkGeomColProp (MappedProperty.column p) = true →
      (e.getattr p.key).isGeomOrNone = true →
      ∃ rf, GeoInterface.read m addProps e = .ok rf ∧
        rf.geometry = cacheFreeGeom e p.key) ∧
    (∀ (m : Mapper) (addProps : List String) (f : Feature) (e : Entity)
        (g : Geom) (p : ColumnProperty),
      Mapper.wf m →
      f.geometry = FGeom.fgeom g →
      MappedProperty.column p ∈ m.props →
      isNonPkGeomColProp (MappedProperty.column p) = true →
      p.key ∉ addProps →
      ∃ rf, GeoInterface.read m addProps
          (GeoInterface.update m addProps f e) = .ok rf ∧
        rf.geometry =
          cacheFreeGeom (GeoInterface.update m addProps f e) p.key) := by
  constructor
  · intro m addProps e p hall hcache hu hmem hp hval
    have hsafe : readSafe e m.props = true := by
      apply readSafe_of_geom_vals e m.props hall
      intro p' hmem' hpk' hg'
      have heqq : MappedProperty.column p' = .column p :=
        hu _ hmem' (by simp [isNonPkGeomColProp, hpk', hg'])
      have hpp : p' = p := by injection heqq
      rw [hpp]
      exact hval
    refine ⟨_, read_ok m addProps e hsafe, ?_⟩
    show readGeomRef e m.props none = cacheFreeGeom e p.key
    rw [readGeomRef_unique e p hcache hp m.props none hu hmem]
    cases hv : e.getattr p.key <;> simp [cacheFreeGeom, hv]
  · intro m addProps f e g p hwf hg hmem hp hnin
    obtain ⟨hall, hnd⟩ := hwf
    set e' := GeoInterface.update m addProps f e with he'
    have hnpg : hasNonPkGeomCol m.props = true :=
      List.any_eq_true.mpr ⟨_, hmem, hp⟩
    have hshape : e'.shapeAttr = some (asShape g) := by
      rw [he', GeoInterface.update, setAddProps_shapeAttr]
      exact updateProps_shapeAttr_of_geom f m.props g hg _
        (hasGeomCol_of_nonPk m.props hnpg)
    have hsafe : readSafe e' m.props = true :=
      readSafe_of_cached e' m.props hall (by rw [hshape]; rfl)
    refine ⟨_, read_ok m addProps e' hsafe, ?_⟩
    show readGeomRef e' m.props none = cacheFreeGeom e' p.key
    rw [readGeomRef_cached e' (asShape g) hshape m.props none hnpg]
    have hpflags : p.col0.primary_key = false ∧ p.col0.isGeometry = true := by
      simpa [isNonPkGeomColProp, Bool.and_eq_true, Bool.not_eq_true'] using hp
    have hget : e'.getattr p.key =
        Value.vgeom (from_shape (asShape g) p.col0.srid) := by
      rw [he', GeoInterface.update, setAddProps_getattr, if_neg hnin,
        updateProps_getattr_mem f m.props p _ hnd hmem]
      simp [updateVal, hpflags.2, hg]
    simp [cacheFreeGeom, hget, to_shape, from_shape]

/-- C6 witness: both parts on the `Spot`-like class. -/
theorem C6_geometry_from_stored_value_witness :
    (∃ rf, GeoInterface.read spotMapper [] storedOnlyEntity = .ok rf ∧
      rf.geometry = cacheFreeGeom storedOnlyEntity "geom") ∧
    (∃ rf, GeoInterface.read spotMapper []
        (GeoInterface.update spotMapper [] spotFeature Entity.fresh) =
        .ok rf ∧
      rf.geometry = cacheFreeGeom
        (GeoInterface.update spotMapper [] spotFeature Entity.fresh) "geom") :=
  ⟨C6_geometry_from_stored_value.1 spotMapper [] storedOnlyEntity geomProp
      (by decide) rfl (by decide) (by decide) (by decide) (by decide),
   C6_geometry_from_stored_value.2 spotMapper [] spotFeature Entity.fresh
      ⟨[(1, 2)]⟩ geomProp ⟨by decide, by decide⟩ rfl (by decide) (by decide)
      (by decide)⟩

/-- C7: the XSD render function, invoked with a request present, sets
the response content type to `application/xml` and returns exactly the
schema document produced by the generator (`get_class_xsd`, modelled
abstractly as `gen` since `papyrus/xsd.py` is outside the embedded
sources) applied to the rendered class and the renderer's configured
`include_primary_keys`, `include_foreign_keys`, and the two
callbacks. -/
theorem C7_xsd_render
    (gen : String → Bool → Bool → Option String → Option String → String)
    (ipk ifk : Bool) (rcb pcb : Option String) (cls : String)
    (req : Request) :
    XSD.render gen ipk ifk rcb pcb cls (some req) =
      (some (gen cls ipk ifk rcb pcb),
       some { req with response :=
         { req.response with content_type := "application/xml" } }) := rfl

/-- C8 counterexample: errors in the operations are not exactly the
underlying library's errors.  With a conversion function that never
raises, `__read__` still raises its own `NotImplementedError` on a
column property spanning two columns, so "errors occur iff an
underlying call errs" fails. -/
theorem C8_not_implemented_error_is_own :
    GeoInterface.readE totalToShape twoColMapper [] Entity.fresh =
      .error "NotImplementedError" := rfl

/-- C8 (amended): no operation catches or substitutes a fallback for a
library error — when the `to_shape` conversion raises inside
`__read__`, the operation raises exactly that error — but `__read__`
additionally raises its own `NotImplementedError` for column
properties spanning more than one column (and, at module import,
`renderers.py` catches an `ImportError` for `cStringIO` and falls back
to `StringIO`). -/
theorem C8_library_error_propagation
    (toShape : Value → Except String Shape) (m : Mapper)
    (addProps : List String) (e : Entity) (p : ColumnProperty)
    (msg : String)
    (hall : m.props.all wfProp = true)
    (hcache : e.shapeAttr = none)
    (hp : isNonPkGeomColProp (MappedProperty.column p) = true)
    (hu : ∀ mp ∈ m.props, isNonPkGeomColProp mp = true →
      mp = MappedProperty.column p)
    (hmem : MappedProperty.column p ∈ m.props)
    (hval : e.getattr p.key ≠ Value.vnone)
    (herr : toShape (e.getattr p.key) = .error msg) :
    GeoInterface.readE toShape m addProps e = .error msg := by
  rw [GeoInterface.readE,
    readLoop_propagates toShape e p msg hcache hp hval herr m.props hall hu
      hmem Value.vnone none []]

/-- C8 witness: a conversion error "boom" propagates unchanged. -/
theorem C8_library_error_propagation_witness :
    GeoInterface.readE (fun _ => .error "boom") spotMapper [] badGeomEntity =
      .error "boom" :=
  C8_library_error_propagation (fun _ => .error "boom") spotMapper []
    badGeomEntity geomProp "boom" (by decide) rfl (by decide) (by decide)
    (by decide) (by decide) rfl

/-- C9: the GeoJSON render function wraps every list (or tuple) value
in the configured collection factory before serialization — the
serialized payload is `dumps` of the wrapped collection, never of the
bare list — and the string constructor argument names the geojson
factory type, `FeatureCollection` being the default. -/
theorem C9_collections_wrapped (dumps : PyValue → String)
    (collection : List PyValue → PyValue) (jpn : String)
    (xs : List PyValue) (request : Option Request) :
    GeoJSON.render dumps collection jpn (PyValue.list xs) request =
      geojsonFinish jpn (dumps (collection xs)) request ∧
    wrapCollection PyValue.featureCollection (PyValue.list xs) =
      PyValue.featureCollection xs ∧
    geojsonFactoryType "FeatureCollection" = some PyValue.featureCollection ∧
    geojsonFactoryType "GeometryCollection" =
      some PyValue.geometryCollection := by
  refine ⟨rfl, rfl, ?_, ?_⟩
  · simp [geojsonFactoryType]
  · simp [geojsonFactoryType]

/-- C10: `__init__` with a `None` feature leaves the object untouched
and never calls `__update__`; with a feature present, the primary-key
attribute is written (before `__update__` runs) exactly when the
feature has an `id` attribute whose value is not `None`. -/
theorem C10_init_frame :
    (∀ (m : Mapper) (a : List String) (e : Entity),
      GeoInterface.init m a none e = some e) ∧
    (∀ (m : Mapper) (a : List String) (f : Feature) (e : Entity),
      f.hasValidId = false →
      GeoInterface.init m a (some f) e =
        some (GeoInterface.update m a f e)) ∧
    (∀ (m : Mapper) (a : List String) (f : Feature) (e : Entity) (v : Value)
        (pk : String),
      f.id = some v → v ≠ Value.vnone → primaryKeyName m = some pk →
      GeoInterface.init m a (some f) e =
        some (GeoInterface.update m a f (e.setattr pk v))) := by
  refine ⟨fun m a e => rfl, ?_, ?_⟩
  · intro m a f e h
    simp [GeoInterface.init, h]
  · intro m a f e v pk hid hv hpk
    have hvalid : f.hasValidId = true := by
      simp [Feature.hasValidId, hid, hv]
    simp [GeoInterface.init, hvalid, hpk, hid]

/-- C10 witness: the three behaviors at concrete inputs. -/
theorem C10_init_frame_witness :
    GeoInterface.init spotMapper [] none staleEntity = some staleEntity ∧
    GeoInterface.init spotMapper [] (some noIdFeature) Entity.fresh =
      some (GeoInterface.update spotMapper [] noIdFeature Entity.fresh) ∧
    GeoInterface.init spotMapper [] (some spotFeature) Entity.fresh =
      some (GeoInterface.update spotMapper [] spotFeature
        (Entity.fresh.setattr "id" (Value.vint 7))) :=
  ⟨C10_init_frame.1 spotMapper [] staleEntity,
   C10_init_frame.2.1 spotMapper [] noIdFeature Entity.fresh (by decide),
   C10_init_frame.2.2 spotMapper [] spotFeature Entity.fresh (Value.vint 7)
     "id" rfl (by decide) rfl⟩

end Papyrus
